import Mathlib

/-!
Shallow embedding of the otp-kit OTP library core: the random OTP generator
(`src/algorithms/random.algorithm.ts`), the counter-based HOTP generator
(`src/algorithms/hotp.algorithm.ts`) and the charset resolver
(`src/utils/getChar.ts`).  Bytes are modelled as `Nat` values below 256,
machine words as `Nat` with explicit reduction modulo `2^32` / `2^64`.
The collaborators consumed by the library (Node's HMAC/SHA digests, the
`base32-decode` package, `Buffer` big-endian accessors) are modelled from
their contracts: FIPS 180-4 for SHA-1/SHA-256/SHA-512, RFC 2104 for HMAC,
RFC 4648 (case-insensitive, optional padding) for Base32.
-/

set_option maxRecDepth 8192

/-- Reduce modulo `2^32` (JavaScript/Node 32-bit unsigned arithmetic). -/
def w32 (n : Nat) : Nat := n % 4294967296

/-- Left-rotation of a 32-bit word by `s` bits (`0 < s < 32`). -/
def rotl32 (s n : Nat) : Nat := ((n <<< s) ||| (n >>> (32 - s))) % 4294967296

/-- Right-rotation of a `w`-bit word by `s` bits (`0 < s < w`). -/
def rotrw (w s n : Nat) : Nat := ((n >>> s) ||| (n <<< (w - s))) % 2 ^ w

/-- Big-endian byte encoding of `v` on exactly `n` bytes (truncating above). -/
def beBytes : Nat → Nat → List Nat
  | 0, _ => []
  | n + 1, v => beBytes n (v >>> 8) ++ [v &&& 255]

/-- Big-endian word from a list of bytes. -/
def wordBE (l : List Nat) : Nat := l.foldl (fun a b => a * 256 + b) 0

def chunksGo (n : Nat) : Nat → List Nat → List (List Nat)
  | 0, _ => []
  | _, [] => []
  | fuel + 1, l => l.take n :: chunksGo n fuel (l.drop n)

/-- Split a byte list into consecutive chunks of `n` bytes (`n > 0`). -/
def chunksOf (n : Nat) (l : List Nat) : List (List Nat) := chunksGo n l.length l

/-- Merkle-Damgard padding (FIPS 180-4): append `0x80`, zero bytes up to
`lenBytes` short of a block boundary, then the bit length on `lenBytes` bytes. -/
def padMsg (blockBytes lenBytes : Nat) (msg : List Nat) : List Nat :=
  let padLen := (blockBytes - ((msg.length + 1 + lenBytes) % blockBytes)) % blockBytes
  msg ++ 0x80 :: (List.replicate padLen 0 ++ beBytes lenBytes (8 * msg.length))

/-- Big-endian bytes of one 32-bit word. -/
def be4 (x : Nat) : List Nat :=
  [(x >>> 24) &&& 255, (x >>> 16) &&& 255, (x >>> 8) &&& 255, x &&& 255]

/-- Big-endian bytes of one 64-bit word. -/
def be8 (x : Nat) : List Nat :=
  [(x >>> 56) &&& 255, (x >>> 48) &&& 255, (x >>> 40) &&& 255, (x >>> 32) &&& 255,
   (x >>> 24) &&& 255, (x >>> 16) &&& 255, (x >>> 8) &&& 255, x &&& 255]

-- ==================== SHA-1 (FIPS 180-4) ====================

abbrev Sha1State := Nat × Nat × Nat × Nat × Nat

def sha1Init : Sha1State := (0x67452301, 0xefcdab89, 0x98badcfe, 0x10325476, 0xc3d2e1f0)

/-- SHA-1 round function and round constant for round `t`. -/
def sha1FK (t b c d : Nat) : Nat × Nat :=
  if t < 20 then ((b &&& c) ||| ((b ^^^ 0xffffffff) &&& d), 0x5a827999)
  else if t < 40 then (b ^^^ c ^^^ d, 0x6ed9eba1)
  else if t < 60 then ((b &&& c) ||| (b &&& d) ||| (c &&& d), 0x8f1bbcdc)
  else (b ^^^ c ^^^ d, 0xca62c1d6)

def sha1Round : Sha1State → Nat × Nat → Sha1State :=
  fun (a, b, c, d, e) (t, w) =>
    let fk := sha1FK t b c d
    (w32 (rotl32 5 a + fk.1 + e + fk.2 + w), a, rotl32 30 b, c, d)

/-- Extend the 16 message-schedule words by `k` further words. -/
def sha1Extend : Nat → List Nat → List Nat
  | 0, ws => ws
  | k + 1, ws =>
    let t := ws.length
    sha1Extend k (ws ++ [rotl32 1 ((ws.getD (t - 3) 0) ^^^ (ws.getD (t - 8) 0) ^^^
      (ws.getD (t - 14) 0) ^^^ (ws.getD (t - 16) 0))])

def sha1Block (st : Sha1State) (block : List Nat) : Sha1State :=
  let ws := sha1Extend 64 ((chunksOf 4 block).map wordBE)
  let r := ((List.range 80).zip ws).foldl sha1Round st
  (w32 (st.1 + r.1), w32 (st.2.1 + r.2.1), w32 (st.2.2.1 + r.2.2.1),
   w32 (st.2.2.2.1 + r.2.2.2.1), w32 (st.2.2.2.2 + r.2.2.2.2))

def sha1Out (t : Sha1State) : List Nat :=
  be4 t.1 ++ be4 t.2.1 ++ be4 t.2.2.1 ++ be4 t.2.2.2.1 ++ be4 t.2.2.2.2

/-- SHA-1 digest (20 bytes) of a byte sequence. -/
def sha1Bytes (msg : List Nat) : List Nat :=
  sha1Out ((chunksOf 64 (padMsg 64 8 msg)).foldl sha1Block sha1Init)

-- ==================== SHA-256 / SHA-512 (FIPS 180-4) ====================

abbrev Sha2State := Nat × Nat × Nat × Nat × Nat × Nat × Nat × Nat

/-- The first 80 primes; FIPS 180-4 derives the SHA-2 constants from their
square and cube roots. -/
def primes80 : List Nat :=
  [2, 3, 5, 7, 11, 13, 17, 19, 23, 29, 31, 37, 41, 43, 47, 53, 59, 61, 67, 71,
   73, 79, 83, 89, 97, 101, 103, 107, 109, 113, 127, 131, 137, 139, 149, 151,
   157, 163, 167, 173, 179, 181, 191, 193, 197, 199, 211, 223, 227, 229, 233,
   239, 241, 251, 257, 263, 269, 271, 277, 281, 283, 293, 307, 311, 313, 317,
   331, 337, 347, 349, 353, 359, 367, 373, 379, 383, 389, 397, 401, 409]

def icbrtGo (n : Nat) : Nat → Nat → Nat → Nat
  | 0, lo, _ => lo
  | fuel + 1, lo, hi =>
    if hi ≤ lo + 1 then lo
    else
      let mid := (lo + hi) / 2
      if mid * mid * mid ≤ n then icbrtGo n fuel mid hi else icbrtGo n fuel lo mid

/-- Integer cube root (binary search; fuel 256 covers `n < 2^256`). -/
def icbrt (n : Nat) : Nat := icbrtGo n 256 0 (n + 1)

/-- First `w` bits of the fractional part of the square root of `p`. -/
def fracSqrtBits (w p : Nat) : Nat := Nat.sqrt (p * 4 ^ w) % 2 ^ w

/-- First `w` bits of the fractional part of the cube root of `p`. -/
def fracCbrtBits (w p : Nat) : Nat := icbrt (p * 8 ^ w) % 2 ^ w

def tuple8 (l : List Nat) : Sha2State :=
  (l.getD 0 0, l.getD 1 0, l.getD 2 0, l.getD 3 0, l.getD 4 0, l.getD 5 0,
   l.getD 6 0, l.getD 7 0)

def sha256K : List Nat := (primes80.take 64).map (fracCbrtBits 32)
def sha256InitSt : Sha2State := tuple8 ((primes80.take 8).map (fracSqrtBits 32))
def sha512K : List Nat := primes80.map (fracCbrtBits 64)
def sha512InitSt : Sha2State := tuple8 ((primes80.take 8).map (fracSqrtBits 64))

def s256sig0 (x : Nat) : Nat := rotrw 32 7 x ^^^ rotrw 32 18 x ^^^ (x >>> 3)
def s256sig1 (x : Nat) : Nat := rotrw 32 17 x ^^^ rotrw 32 19 x ^^^ (x >>> 10)
def s256SIG0 (x : Nat) : Nat := rotrw 32 2 x ^^^ rotrw 32 13 x ^^^ rotrw 32 22 x
def s256SIG1 (x : Nat) : Nat := rotrw 32 6 x ^^^ rotrw 32 11 x ^^^ rotrw 32 25 x
def s512sig0 (x : Nat) : Nat := rotrw 64 1 x ^^^ rotrw 64 8 x ^^^ (x >>> 7)
def s512sig1 (x : Nat) : Nat := rotrw 64 19 x ^^^ rotrw 64 61 x ^^^ (x >>> 6)
def s512SIG0 (x : Nat) : Nat := rotrw 64 28 x ^^^ rotrw 64 34 x ^^^ rotrw 64 39 x
def s512SIG1 (x : Nat) : Nat := rotrw 64 14 x ^^^ rotrw 64 18 x ^^^ rotrw 64 41 x

/-- Extend a 16-word SHA-2 message schedule by `k` further words (mod `m`). -/
def sha2Extend (m : Nat) (sig0 sig1 : Nat → Nat) : Nat → List Nat → List Nat
  | 0, ws => ws
  | k + 1, ws =>
    let t := ws.length
    sha2Extend m sig0 sig1 k (ws ++ [(sig1 (ws.getD (t - 2) 0) + ws.getD (t - 7) 0 +
      sig0 (ws.getD (t - 15) 0) + ws.getD (t - 16) 0) % m])

def sha2Round (m : Nat) (bS0 bS1 : Nat → Nat) : Sha2State → Nat × Nat → Sha2State :=
  fun (a, b, c, d, e, f, g, h) (k, w) =>
    let t1 := (h + bS1 e + ((e &&& f) ^^^ ((e ^^^ (m - 1)) &&& g)) + k + w) % m
    let t2 := (bS0 a + ((a &&& b) ^^^ (a &&& c) ^^^ (b &&& c))) % m
    ((t1 + t2) % m, a, b, c, (d + t1) % m, e, f, g)

def sha2Block (m wordBytes : Nat) (K : List Nat) (sig0 sig1 bS0 bS1 : Nat → Nat)
    (st : Sha2State) (block : List Nat) : Sha2State :=
  let ws := sha2Extend m sig0 sig1 (K.length - 16) ((chunksOf wordBytes block).map wordBE)
  let r := (K.zip ws).foldl (sha2Round m bS0 bS1) st
  ((st.1 + r.1) % m, (st.2.1 + r.2.1) % m, (st.2.2.1 + r.2.2.1) % m,
   (st.2.2.2.1 + r.2.2.2.1) % m, (st.2.2.2.2.1 + r.2.2.2.2.1) % m,
   (st.2.2.2.2.2.1 + r.2.2.2.2.2.1) % m, (st.2.2.2.2.2.2.1 + r.2.2.2.2.2.2.1) % m,
   (st.2.2.2.2.2.2.2 + r.2.2.2.2.2.2.2) % m)

def sha256Out (t : Sha2State) : List Nat :=
  be4 t.1 ++ be4 t.2.1 ++ be4 t.2.2.1 ++ be4 t.2.2.2.1 ++ be4 t.2.2.2.2.1 ++
  be4 t.2.2.2.2.2.1 ++ be4 t.2.2.2.2.2.2.1 ++ be4 t.2.2.2.2.2.2.2

def sha512Out (t : Sha2State) : List Nat :=
  be8 t.1 ++ be8 t.2.1 ++ be8 t.2.2.1 ++ be8 t.2.2.2.1 ++ be8 t.2.2.2.2.1 ++
  be8 t.2.2.2.2.2.1 ++ be8 t.2.2.2.2.2.2.1 ++ be8 t.2.2.2.2.2.2.2

/-- SHA-256 digest (32 bytes) of a byte sequence. -/
def sha256Bytes (msg : List Nat) : List Nat :=
  sha256Out ((chunksOf 64 (padMsg 64 8 msg)).foldl
    (sha2Block 4294967296 4 sha256K s256sig0 s256sig1 s256SIG0 s256SIG1) sha256InitSt)

/-- SHA-512 digest (64 bytes) of a byte sequence. -/
def sha512Bytes (msg : List Nat) : List Nat :=
  sha512Out ((chunksOf 128 (padMsg 128 16 msg)).foldl
    (sha2Block 18446744073709551616 8 sha512K s512sig0 s512sig1 s512SIG0 s512SIG1)
    sha512InitSt)

-- ==================== HASH DISPATCH AND HMAC (RFC 2104) ====================

/-- The hash algorithms accepted by the HOTP options (`base.algorithm.ts`). -/
inductive HashAlgorithm
  | sha1
  | sha256
  | sha512
deriving DecidableEq

def shaBytes : HashAlgorithm → List Nat → List Nat
  | .sha1 => sha1Bytes
  | .sha256 => sha256Bytes
  | .sha512 => sha512Bytes

def digestLength : HashAlgorithm → Nat
  | .sha1 => 20
  | .sha256 => 32
  | .sha512 => 64

def hmacBlockSize : HashAlgorithm → Nat
  | .sha1 => 64
  | .sha256 => 64
  | .sha512 => 128

/-- HMAC (RFC 2104): keys longer than the block are hashed, then zero-padded
to the block size; inner pad `0x36`, outer pad `0x5c`. -/
def hmacBytes (alg : HashAlgorithm) (key msg : List Nat) : List Nat :=
  let bs := hmacBlockSize alg
  let k0 := if bs < key.length then shaBytes alg key else key
  let kp := k0 ++ List.replicate (bs - k0.length) 0
  shaBytes alg (kp.map (fun b => b ^^^ 0x5c) ++
    shaBytes alg (kp.map (fun b => b ^^^ 0x36) ++ msg))

-- ==================== BASE32 DECODING (RFC 4648) ====================

def b32Chars : List Char := "ABCDEFGHIJKLMNOPQRSTUVWXYZ234567".toList

/-- Index of a character in the RFC 4648 Base32 alphabet (`none` = invalid). -/
def b32Index (c : Char) : Option Nat := List.indexOf? c b32Chars

def b32DecodeGo : List Char → Nat → Nat → Option (List Nat)
  | [], _, _ => some []
  | c :: cs, bits, value =>
    match b32Index c with
    | none => none
    | some idx =>
      let value2 := ((value <<< 5) ||| idx) % 4294967296
      let bits2 := bits + 5
      if 8 ≤ bits2 then
        (b32DecodeGo cs (bits2 - 8) value2).map
          (fun rest => ((value2 >>> (bits2 - 8)) &&& 255) :: rest)
      else
        b32DecodeGo cs bits2 value2

/-- Drop trailing padding characters. -/
def dropEq (l : List Char) : List Char := (l.reverse.dropWhile (fun c => c = '=')).reverse

/-- Base32 decoding, modelled from the collaborator's contract
(RFC 4648 alphabet, case-insensitive, optional trailing padding); returns
`none` on a character outside the alphabet. -/
def base32Decode (s : String) : Option (List Nat) :=
  b32DecodeGo (dropEq (s.toList.map Char.toUpper)) 0 0

-- ==================== HOTP ALGORITHM (hotp.algorithm.ts) ====================

/-- `HotpOptions` from `base.algorithm.ts`: `secret` is Base32 text,
`counter` the default moving factor, `digits` and `algorithm` optional. -/
structure HotpOptions where
  secret : String
  counter : Int
  digits : Option Int
  algorithm : Option HashAlgorithm
deriving DecidableEq

/-- The validated state of a `HotpOtpAlgorithm` instance: `digits`,
`algorithm`, the Base32-decoded `secretKey` and the stored `counter`
(a JavaScript `BigInt`, hence `Int`).  The guard in the constructor only
lets through non-negative digits, so they are stored as `Nat`. -/
structure HotpOtpAlgorithm where
  digits : Nat
  algorithm : HashAlgorithm
  secretKey : List Nat
  counter : Int
deriving DecidableEq

/-- Truthiness test `opts.digits && (opts.digits < 4 || opts.digits > 10)`
of the constructor: `0` is falsy in JavaScript. -/
def digitsBad : Option Int → Bool
  | none => false
  | some d => d != 0 && (d < 4 || d > 10)

/-- The `HotpOtpAlgorithm` constructor (lines 49-63 of
`hotp.algorithm.ts`): reject a missing secret, reject truthy out-of-range
digits, then Base32-decode the secret. -/
def HotpOtpAlgorithm.construct (opts : HotpOptions) : Except String HotpOtpAlgorithm :=
  if opts.secret = "" then .error "Secret is required"
  else if digitsBad opts.digits then .error "Digits must be between 4 and 10"
  else
    match base32Decode opts.secret with
    | none => .error "Invalid Base32 secret encoding"
    | some key =>
      .ok { digits := (opts.digits.getD 6).toNat,
            algorithm := opts.algorithm.getD .sha1,
            secretKey := key,
            counter := opts.counter }

/-- `Buffer.writeBigUInt64BE`: big-endian 8-byte encoding; Node throws a
`RangeError` outside `[0, 2^64)`. -/
def writeBigUInt64BE (v : Int) : Except String (List Nat) :=
  if v < 0 ∨ 18446744073709551616 ≤ v then .error "ERR_OUT_OF_RANGE"
  else .ok (beBytes 8 v.toNat)

/-- `Buffer.readUInt32BE`: big-endian 32-bit read; Node throws when fewer
than 4 bytes are available at `off`. -/
def readUInt32BE (bs : List Nat) (off : Nat) : Except String Nat :=
  if off + 4 ≤ bs.length then
    .ok ((bs.getD off 0 <<< 24) ||| (bs.getD (off + 1) 0 <<< 16) |||
         (bs.getD (off + 2) 0 <<< 8) ||| bs.getD (off + 3) 0)
  else .error "ERR_OUT_OF_RANGE"

/-- JavaScript `String.prototype.padStart(n, "0")`. -/
def padStartZero (n : Nat) (s : String) : String :=
  String.mk (List.replicate (n - s.length) '0') ++ s

/-- `HotpOtpAlgorithm.generate` (lines 86-95 of `hotp.algorithm.ts`):
8-byte big-endian counter, HMAC digest, dynamic truncation with the 31-bit
mask, reduction mod `10^digits`, zero-padding.  The `secret` parameter is
declared but unused by the source; the moving factor defaults to the
stored counter. -/
def HotpOtpAlgorithm.generate (inst : HotpOtpAlgorithm) (secret : Option String)
    (movingFactor : Option Int) : Except String String :=
  let mf := movingFactor.getD inst.counter
  match writeBigUInt64BE mf with
  | .error e => .error e
  | .ok buf =>
    let hmac := hmacBytes inst.algorithm inst.secretKey buf
    let offset := hmac.getLastD 0 &&& 0x0f
    match readUInt32BE hmac offset with
    | .error e => .error e
    | .ok word =>
      let binary := (word &&& 0x7fffffff) % 10 ^ inst.digits
      .ok (padStartZero inst.digits (toString binary))

/-- `HotpOtpAlgorithm.verify` (lines 97-105): the body is a placeholder
that returns `false` regardless of its arguments. -/
def HotpOtpAlgorithm.verify (inst : HotpOtpAlgorithm) (input : String)
    (secret : Option String) (expected : Option String) : Bool :=
  false

-- ==================== CHARSET RESOLVER (utils/getChar.ts) ====================

/-- `getChars` from `src/utils/getChar.ts`.  The `charset` tag is a string
at run time; the `switch` falls through to the `default` throw on any
unrecognised tag.  The `custom` branch throws when `customChars` is absent
or empty (JavaScript falsiness of `undefined` and `""`). -/
def getChars (charset : String) (customChars : Option String) : Except String String :=
  if charset = "numeric" then .ok "0123456789"
  else if charset = "alphabetic" then
    .ok "abcdefghijklmnopqrstuvwxyzABCDEFGHIJKLMNOPQRSTUVWXYZ"
  else if charset = "alphanumeric" then
    .ok "0123456789abcdefghijklmnopqrstuvwxyzABCDEFGHIJKLMNOPQRSTUVWXYZ"
  else if charset = "hex" then .ok "0123456789abcdef"
  else if charset = "custom" then
    match customChars with
    | none => .error "customChars must be provided when charset is 'custom'"
    | some s =>
      if s = "" then .error "customChars must be provided when charset is 'custom'"
      else .ok s
  else .error ("Unsupported charset: " ++ charset)

-- ==================== RANDOM OTP ALGORITHM (random.algorithm.ts) ====================

/-- The `Charset` union type of `base.algorithm.ts`. -/
inductive Charset
  | numeric
  | alphabetic
  | alphanumeric
  | hex
  | custom
deriving DecidableEq

/-- The string tag a `Charset` value is at run time. -/
def Charset.toStr : Charset → String
  | .numeric => "numeric"
  | .alphabetic => "alphabetic"
  | .alphanumeric => "alphanumeric"
  | .hex => "hex"
  | .custom => "custom"

/-- `RandomOtpOptions` from `base.algorithm.ts`: all three fields may be
absent (the runtime view; the declared union additionally ties
`customCharset` to `charset == "custom"`). -/
structure RandomOtpOptions where
  length : Option Int
  charset : Option Charset
  customCharset : Option String
deriving DecidableEq

/-- The merged options a constructed `RandomOtpAlgorithm` instance holds. -/
structure RandomOtpAlgorithm where
  length : Int
  charset : Charset
  customCharset : Option String
deriving DecidableEq

/-- JavaScript falsiness of an optional string: `undefined` and `""`. -/
def falsyOptStr : Option String → Bool
  | none => true
  | some s => s == ""

/-- The `RandomOtpAlgorithm` constructor (lines 36-58 of
`random.algorithm.ts`): merge over defaults `{length := 6, charset :=
numeric, customCharset := undefined}`, then run the three checks in source
order. -/
def RandomOtpAlgorithm.construct (opts : RandomOtpOptions) :
    Except String RandomOtpAlgorithm :=
  let len := opts.length.getD 6
  let cs := opts.charset.getD .numeric
  let cc := opts.customCharset
  if cs = Charset.custom ∧ falsyOptStr cc then
    .error "Custom charset is required when charset is 'custom'"
  else if len ≤ 0 then
    .error "Invalid OTP length: must be greater than 0"
  else if cs ≠ Charset.custom ∧ falsyOptStr cc = false then
    .error "Custom charset should only be provided when charset is 'custom'"
  else
    .ok { length := len, charset := cs, customCharset := cc }

/-- `RandomOtpAlgorithm.generate` (lines 71-83): resolve the alphabet,
then map each drawn random byte to the symbol at `byte % chars.length`.
The cryptographically secure random source is a collaborator; the bytes it
returned are the `randomBytes` parameter. -/
def RandomOtpAlgorithm.generate (inst : RandomOtpAlgorithm)
    (randomBytes : List Nat) : Except String String :=
  match getChars inst.charset.toStr inst.customCharset with
  | .error e => .error e
  | .ok chars =>
    .ok (String.mk (randomBytes.map
      (fun b => chars.toList.getD (b % chars.toList.length) '?')))

/-- `crypto.timingSafeEqual` on `Buffer.from` of two strings: throws when
the UTF-8 byte lengths differ, otherwise compares the bytes (equal UTF-8
bytes exactly when the strings are equal). -/
def timingSafeEqual (a b : String) : Except String Bool :=
  if a.utf8ByteSize = b.utf8ByteSize then .ok (a == b)
  else .error "ERR_CRYPTO_TIMING_SAFE_EQUAL_LENGTH"

/-- Truthiness test `opts?.expiresAt && Date.now() > opts.expiresAt` of
`verify`: an `expiresAt` of `0` is falsy, so the check is skipped. -/
def expiryHit : Option Int → Int → Bool
  | none, _ => false
  | some t, now => t != 0 && now > t

/-- `RandomOtpAlgorithm.verify` (lines 108-127): empty-argument check,
truthy expiry check against the current time, then the fixed-time
comparison with its length mismatch caught and turned into `false`.  The
method reads no instance state; `now` stands for `Date.now()`. -/
def RandomOtpAlgorithm.verify (userOtp expectedOtp : String)
    (expiresAt : Option Int) (now : Int) : Bool :=
  if userOtp == "" || expectedOtp == "" then false
  else if expiryHit expiresAt now then false
  else
    match timingSafeEqual userOtp expectedOtp with
    | .ok b => b
    | .error _ => false

deriving instance DecidableEq for Except

-- ==================== SHARED CONCRETE VALUES ====================

/-- The HOTP options the test suite uses for the secret `"JBSWY3DPEHPK3PXP"`. -/
def helloOpts : HotpOptions :=
  { secret := "JBSWY3DPEHPK3PXP", counter := 1, digits := none, algorithm := none }

/-- The instance `helloOpts` constructs: the secret decodes to the ten
bytes of `"Hello!"` followed by `DE AD BE EF`. -/
def helloInst : HotpOtpAlgorithm :=
  { digits := 6, algorithm := .sha1,
    secretKey := [72, 101, 108, 108, 111, 33, 222, 173, 190, 239], counter := 1 }

-- ==================== CLAIM THEOREMS ====================

/-- Claim C1: the HOTP generator constructed with the RFC 4226 secret
`"GEZDGNBVGY3TQOJQGEZDGNBVGY3TQOJQ"`, 6 digits and SHA-1 generates
`"755224"` at moving factor 0 and `"287082"` at moving factor 1. -/
theorem C1_hotp_rfc4226_vectors :
    (HotpOtpAlgorithm.construct { secret := "GEZDGNBVGY3TQOJQGEZDGNBVGY3TQOJQ", counter := 0, digits := some 6, algorithm := some .sha1 }).map
      (fun inst => (inst.generate none (some 0), inst.generate none (some 1))) =
    .ok (.ok "755224", .ok "287082") := by decide

/-- Claim C4: the HOTP `verify` placeholder returns `false` for every
instance and every combination of arguments. -/
theorem C4_hotp_verify_always_false (inst : HotpOtpAlgorithm) (input : String)
    (secret : Option String) (expected : Option String) :
    inst.verify input secret expected = false := rfl

/-- Claim C10: HOTP `generate` ignores its secret-override parameter: any
two secret arguments (including absent) give the same code on the same
instance and moving factor. -/
theorem C10_hotp_generate_ignores_secret (inst : HotpOtpAlgorithm)
    (s1 s2 : Option String) (mf : Option Int) :
    inst.generate s1 mf = inst.generate s2 mf := rfl

/-- Claim C7 (code bug): the constructor guard `opts.digits && ...` skips
the range check for the falsy value `0`, so `digits := 0` — outside
`[4, 10]` — is accepted and stored, contradicting the claim and the
constructor's own documentation; `3` and `11` are rejected as claimed, and
absent digits default to 6. -/
theorem C7_hotp_digits_zero_accepted :
    ((HotpOtpAlgorithm.construct { secret := "JBSWY3DPEHPK3PXP", counter := 0, digits := some 0, algorithm := none }).map (fun i => i.digits) = .ok 0) ∧
    ((HotpOtpAlgorithm.construct { secret := "JBSWY3DPEHPK3PXP", counter := 0, digits := none, algorithm := none }).map (fun i => i.digits) = .ok 6) ∧
    (HotpOtpAlgorithm.construct { secret := "JBSWY3DPEHPK3PXP", counter := 0, digits := some 3, algorithm := none } = .error "Digits must be between 4 and 10") ∧
    (HotpOtpAlgorithm.construct { secret := "JBSWY3DPEHPK3PXP", counter := 0, digits := some 11, algorithm := none } = .error "Digits must be between 4 and 10") :=
  ⟨by decide, by decide, by decide, by decide⟩

/-- Claim C5: HOTP generation is deterministic — two instances constructed
from the same options give the same code at the same moving factor. -/
theorem C5_hotp_deterministic (opts : HotpOptions) (i1 i2 : HotpOtpAlgorithm)
    (s : Option String) (mf : Option Int)
    (h1 : HotpOtpAlgorithm.construct opts = .ok i1)
    (h2 : HotpOtpAlgorithm.construct opts = .ok i2) :
    i1.generate s mf = i2.generate s mf := by
  rw [h1] at h2
  injection h2 with h
  rw [h]

/-- Witness for C5 at the test suite's options. -/
theorem C5_witness :
    helloInst.generate none (some 5) = helloInst.generate none (some 5) :=
  C5_hotp_deterministic helloOpts helloInst helloInst none (some 5)
    (by decide) (by decide)

-- ==================== HELPER LEMMAS ====================

/-- Every HMAC digest has the hash algorithm's digest length. -/
theorem hmacBytes_length (alg : HashAlgorithm) (key msg : List Nat) :
    (hmacBytes alg key msg).length = digestLength alg := by
  cases alg <;> rfl

/-- A successfully constructed random instance always resolves its
alphabet: the constructor's checks rule out every throwing branch of
`getChars`. -/
theorem construct_resolvesChars (opts : RandomOtpOptions) (inst : RandomOtpAlgorithm)
    (h : RandomOtpAlgorithm.construct opts = .ok inst) :
    ∃ cs, getChars inst.charset.toStr inst.customCharset = .ok cs := by
  simp only [RandomOtpAlgorithm.construct] at h
  split at h
  · simp at h
  · split at h
    · simp at h
    · split at h
      · simp at h
      · rename_i h1 h2 h3
        injection h with h4
        subst h4
        cases hc : opts.charset.getD Charset.numeric <;> rw [hc] at h1 h3
        case numeric => exact ⟨_, rfl⟩
        case alphabetic => exact ⟨_, rfl⟩
        case alphanumeric => exact ⟨_, rfl⟩
        case hex => exact ⟨_, rfl⟩
        case custom =>
          cases hcc : opts.customCharset with
          | none => rw [hcc] at h1; simp [falsyOptStr] at h1
          | some t =>
            rw [hcc] at h1
            have ht : ¬(t = "") := by
              intro hteq
              exact h1 ⟨rfl, by simp [falsyOptStr, hteq]⟩
            simp [Charset.toStr, getChars, ht]

-- ==================== REMAINING CLAIM THEOREMS ====================

/-- Claim C2: on a successfully constructed random instance, `generate`
maps each drawn byte to the resolved alphabet's symbol at `byte mod
alphabetSize`, and for `length` drawn bytes the code has exactly `length`
symbols. -/
theorem C2_random_generate_shape (opts : RandomOtpOptions) (inst : RandomOtpAlgorithm)
    (bytes : List Nat) (hc : RandomOtpAlgorithm.construct opts = .ok inst)
    (hb : bytes.length = inst.length.toNat) :
    ∃ chars : String,
      getChars inst.charset.toStr inst.customCharset = .ok chars ∧
      inst.generate bytes = .ok (String.mk (bytes.map
        (fun b => chars.toList.getD (b % chars.toList.length) '?'))) ∧
      (String.mk (bytes.map
        (fun b => chars.toList.getD (b % chars.toList.length) '?'))).length
        = inst.length.toNat := by
  obtain ⟨chars, hch⟩ := construct_resolvesChars opts inst hc
  refine ⟨chars, hch, ?_, ?_⟩
  · simp [RandomOtpAlgorithm.generate, hch]
  · show (bytes.map _).length = _
    rw [List.length_map]
    exact hb

/-- Witness for C2: a custom two-symbol alphabet, two drawn bytes. -/
theorem C2_witness :
    (RandomOtpAlgorithm.mk 2 Charset.custom (some "ab")).generate [0, 3] =
      .ok "ab" := by
  obtain ⟨chars, hch, hgen, -⟩ :=
    C2_random_generate_shape ⟨some 2, some Charset.custom, some "ab"⟩
      ⟨2, Charset.custom, some "ab"⟩ [0, 3] (by decide) (by decide)
  have h0 : getChars "custom" (some "ab") = Except.ok "ab" := by decide
  have hch2 : getChars "custom" (some "ab") = Except.ok chars := hch
  have hce : (Except.ok "ab" : Except String String) = Except.ok chars :=
    h0.symm.trans hch2
  cases hce
  exact hgen.trans (by decide)

/-- Claim C3 (amended): the random `verify` returns `false` on an empty
argument; returns `false` whenever a NONZERO `expiresAt` is supplied and
the current time exceeds it (an `expiresAt` of `0` is falsy in JavaScript,
so the expiry check is skipped); otherwise `verify x x` is `true` when no
expiry applies, `verify x y` with `x ≠ y` is `false`, and unequal lengths
are non-matching without throwing. -/
theorem C3_random_verify_behaviour (x y : String) (e : Option Int) (now : Int) :
    ((x = "" ∨ y = "") → RandomOtpAlgorithm.verify x y e now = false) ∧
    (∀ t, e = some t → t ≠ 0 → now > t →
      RandomOtpAlgorithm.verify x y e now = false) ∧
    (x ≠ "" → (e = none ∨ ∃ t, e = some t ∧ (t = 0 ∨ now ≤ t)) →
      RandomOtpAlgorithm.verify x x e now = true) ∧
    (x ≠ y → RandomOtpAlgorithm.verify x y e now = false) := by
  refine ⟨?_, ?_, ?_, ?_⟩
  · rintro (rfl | rfl) <;> simp [RandomOtpAlgorithm.verify]
  · rintro t rfl hne hgt
    have hhit : expiryHit (some t) now = true := by
      simp [expiryHit, hne, hgt]
    simp [RandomOtpAlgorithm.verify, hhit]
  · intro hx hexp
    have hhit : expiryHit e now = false := by
      rcases hexp with rfl | ⟨t, rfl, ht⟩
      · rfl
      · rcases ht with rfl | hle
        · simp [expiryHit]
        · simp [expiryHit]
          intro
          omega
    simp [RandomOtpAlgorithm.verify, hx, hhit, timingSafeEqual]
  · intro hne
    by_cases hx : x = ""
    · simp [RandomOtpAlgorithm.verify, hx]
    · by_cases hy : y = ""
      · simp [RandomOtpAlgorithm.verify, hy]
      · by_cases hhit : expiryHit e now = true
        · simp [RandomOtpAlgorithm.verify, hx, hy, hhit]
        · by_cases hsz : x.utf8ByteSize = y.utf8ByteSize
          · simp [RandomOtpAlgorithm.verify, hx, hy, hhit, timingSafeEqual, hsz, hne]
          · simp [RandomOtpAlgorithm.verify, hx, hy, hhit, timingSafeEqual, hsz]

/-- Counterexample to C3 as stated: `expiresAt = 0` is supplied and lies
in the past (`now = 1 > 0`), yet `verify` returns `true` because `0` is
falsy in the check `opts?.expiresAt && Date.now() > opts.expiresAt`. -/
theorem C3_counterexample_zero_expiry :
    RandomOtpAlgorithm.verify "0" "0" (some 0) 1 = true ∧ (0 : Int) < 1 :=
  ⟨by decide, by decide⟩

/-- Witness for C3 on a matching pair with a future expiry. -/
theorem C3_witness :
    RandomOtpAlgorithm.verify "123456" "123456" (some 99) 5 = true :=
  (C3_random_verify_behaviour "123456" "123456" (some 99) 5).2.2.1 (by decide)
    (Or.inr ⟨99, rfl, Or.inr (by decide)⟩)

/-- Claim C6 (amended): construction merges the supplied config over the
defaults `{length := 6, charset := numeric}` and fails exactly when
`length ≤ 0` (`InvalidLength`), `charset = custom` with `customCharset`
missing or empty (`InvalidCharsetConfig`, checked first), or a NONEMPTY
`customCharset` is supplied while `charset ≠ custom`
(`InvalidCharsetConfig`); otherwise it succeeds and stores the merged
config. -/
theorem C6_random_construct_validation (opts : RandomOtpOptions) :
    (opts.charset.getD .numeric = Charset.custom →
      falsyOptStr opts.customCharset = true →
      RandomOtpAlgorithm.construct opts =
        .error "Custom charset is required when charset is 'custom'") ∧
    (¬(opts.charset.getD .numeric = Charset.custom ∧
        falsyOptStr opts.customCharset = true) →
      opts.length.getD 6 ≤ 0 →
      RandomOtpAlgorithm.construct opts =
        .error "Invalid OTP length: must be greater than 0") ∧
    (opts.charset.getD .numeric ≠ Charset.custom →
      falsyOptStr opts.customCharset = false →
      0 < opts.length.getD 6 →
      RandomOtpAlgorithm.construct opts =
        .error "Custom charset should only be provided when charset is 'custom'") ∧
    (RandomOtpAlgorithm.construct opts =
        .ok { length := opts.length.getD 6, charset := opts.charset.getD .numeric,
              customCharset := opts.customCharset } ↔
      ¬(opts.charset.getD .numeric = Charset.custom ∧
          falsyOptStr opts.customCharset = true) ∧
      0 < opts.length.getD 6 ∧
      ¬(opts.charset.getD .numeric ≠ Charset.custom ∧
          falsyOptStr opts.customCharset = false)) ∧
    (∀ inst, RandomOtpAlgorithm.construct opts = .ok inst →
      inst = { length := opts.length.getD 6, charset := opts.charset.getD .numeric,
               customCharset := opts.customCharset }) := by
  refine ⟨?_, ?_, ?_, ?_, ?_⟩
  · intro h1 h2
    simp only [RandomOtpAlgorithm.construct]
    rw [if_pos ⟨h1, h2⟩]
  · intro h1 h2
    simp only [RandomOtpAlgorithm.construct]
    rw [if_neg h1, if_pos h2]
  · intro hcs hcc hlen
    simp only [RandomOtpAlgorithm.construct]
    rw [if_neg (fun hC => hcs hC.1), if_neg (by omega), if_pos ⟨hcs, hcc⟩]
  · constructor
    · intro h
      simp only [RandomOtpAlgorithm.construct] at h
      split at h
      · simp at h
      · split at h
        · simp at h
        · split at h
          · simp at h
          · rename_i h1 h2 h3
            exact ⟨h1, by omega, h3⟩
    · rintro ⟨h1, h2, h3⟩
      simp only [RandomOtpAlgorithm.construct]
      rw [if_neg h1, if_neg (by omega), if_neg h3]
  · intro inst h
    simp only [RandomOtpAlgorithm.construct] at h
    split at h
    · simp at h
    · split at h
      · simp at h
      · split at h
        · simp at h
        · injection h with h4
          exact h4.symm

/-- Counterexample to C6 as stated: an empty `customCharset` is supplied
together with `charset = numeric`, yet construction succeeds, because the
stray-customCharset check tests JavaScript truthiness and `""` is falsy. -/
theorem C6_counterexample_empty_custom_supplied :
    RandomOtpAlgorithm.construct { length := some 6, charset := some .numeric, customCharset := some "" } =
      .ok { length := 6, charset := .numeric, customCharset := some "" } := by
  decide

/-- Witness for C6: `length = 0` is rejected with the invalid-length error. -/
theorem C6_witness :
    RandomOtpAlgorithm.construct { length := some 0, charset := some .numeric, customCharset := none } =
      .error "Invalid OTP length: must be greater than 0" :=
  (C6_random_construct_validation ⟨some 0, some Charset.numeric, none⟩).2.1
    (by decide) (by decide)

/-- Claim C8: the charset resolver maps the four built-in tags to their
alphabets, returns a nonempty custom charset verbatim, rejects a missing
or empty custom charset, and rejects every unrecognised tag. -/
theorem C8_getChars_resolution (cc : Option String) (s : String) :
    getChars "numeric" cc = .ok "0123456789" ∧
    getChars "alphabetic" cc =
      .ok "abcdefghijklmnopqrstuvwxyzABCDEFGHIJKLMNOPQRSTUVWXYZ" ∧
    getChars "alphanumeric" cc =
      .ok "0123456789abcdefghijklmnopqrstuvwxyzABCDEFGHIJKLMNOPQRSTUVWXYZ" ∧
    getChars "hex" cc = .ok "0123456789abcdef" ∧
    (∀ t, t ≠ "" → getChars "custom" (some t) = .ok t) ∧
    getChars "custom" none =
      .error "customChars must be provided when charset is 'custom'" ∧
    getChars "custom" (some "") =
      .error "customChars must be provided when charset is 'custom'" ∧
    (s ∉ ["numeric", "alphabetic", "alphanumeric", "hex", "custom"] →
      getChars s cc = .error ("Unsupported charset: " ++ s)) := by
  refine ⟨rfl, rfl, rfl, rfl, ?_, rfl, rfl, ?_⟩
  · intro t ht
    simp [getChars, ht]
  · intro hs
    simp only [List.mem_cons, List.not_mem_nil, or_false, not_or] at hs
    obtain ⟨h1, h2, h3, h4, h5⟩ := hs
    simp [getChars, h1, h2, h3, h4, h5]

/-- Witness for C8: a nonempty custom charset, and an unrecognised tag. -/
theorem C8_witness :
    getChars "custom" (some "ab") = Except.ok "ab" ∧
    getChars "bogus" none = Except.error "Unsupported charset: bogus" :=
  ⟨(C8_getChars_resolution none "bogus").2.2.2.2.1 "ab" (by decide),
   (C8_getChars_resolution none "bogus").2.2.2.2.2.2.2 (by decide)⟩

/-- Claim C9 (amended): once construction succeeds, `generate` and
`verify` complete without an error — provided the HOTP moving factor in
effect (the override, or otherwise the stored counter) lies in
`[0, 2^64)`; outside that range `Buffer.writeBigUInt64BE` raises.  The
random variant's `generate` never fails on a constructed instance, and
both `verify` operations are Boolean-total by construction. -/
theorem C9_operations_do_not_fail :
    (∀ (opts : HotpOptions) (inst : HotpOtpAlgorithm) (s : Option String)
       (mf : Option Int),
      HotpOtpAlgorithm.construct opts = .ok inst →
      0 ≤ mf.getD inst.counter →
      mf.getD inst.counter < 18446744073709551616 →
      ∃ code, inst.generate s mf = .ok code) ∧
    (∀ (opts : RandomOtpOptions) (inst : RandomOtpAlgorithm) (bytes : List Nat),
      RandomOtpAlgorithm.construct opts = .ok inst →
      ∃ otp, inst.generate bytes = .ok otp) := by
  constructor
  · intro opts inst s mf hc h0 h64
    have hcond : ¬(mf.getD inst.counter < 0 ∨
        (18446744073709551616 : Int) ≤ mf.getD inst.counter) := by omega
    have hw : writeBigUInt64BE (mf.getD inst.counter) =
        .ok (beBytes 8 (mf.getD inst.counter).toNat) := by
      simp [writeBigUInt64BE, hcond]
    simp only [HotpOtpAlgorithm.generate, hw]
    have hlen : ∀ buf, ((hmacBytes inst.algorithm inst.secretKey buf).getLastD 0 &&& 0x0f) + 4 ≤
        (hmacBytes inst.algorithm inst.secretKey buf).length := by
      intro buf
      have hoff : (hmacBytes inst.algorithm inst.secretKey buf).getLastD 0 &&& 0x0f ≤ 0x0f :=
        Nat.and_le_right
      have hdl : (hmacBytes inst.algorithm inst.secretKey buf).length =
          digestLength inst.algorithm := hmacBytes_length _ _ _
      have h19 : 19 ≤ digestLength inst.algorithm := by
        cases inst.algorithm <;> simp [digestLength]
      omega
    have hr : ∀ buf, ∃ w, readUInt32BE (hmacBytes inst.algorithm inst.secretKey buf)
        ((hmacBytes inst.algorithm inst.secretKey buf).getLastD 0 &&& 0x0f) = .ok w := by
      intro buf
      simp only [readUInt32BE]
      rw [if_pos (hlen buf)]
      exact ⟨_, rfl⟩
    obtain ⟨w, hw2⟩ := hr (beBytes 8 (mf.getD inst.counter).toNat)
    simp only [hw2]
    exact ⟨_, rfl⟩
  · intro opts inst bytes hc
    obtain ⟨cs, hcs⟩ := construct_resolvesChars opts inst hc
    have hg : inst.generate bytes = .ok (String.mk (bytes.map
        (fun b => cs.toList.getD (b % cs.toList.length) '?'))) := by
      simp only [RandomOtpAlgorithm.generate, hcs]
    exact ⟨_, hg⟩

/-- Counterexample to C9 as stated: on the test suite's HOTP instance
(whose construction succeeds), `generate` with the in-range-typed but
negative moving factor `-1` raises Node's `RangeError` from
`Buffer.writeBigUInt64BE` instead of completing. -/
theorem C9_counterexample_negative_moving_factor :
    HotpOtpAlgorithm.construct helloOpts = Except.ok helloInst ∧
    helloInst.generate none (some (-1)) = Except.error "ERR_OUT_OF_RANGE" :=
  ⟨by decide, by decide⟩

/-- Witness for C9 on the two constructed instances. -/
theorem C9_witness :
    (∃ code, helloInst.generate none (some 5) = Except.ok code) ∧
    (∃ otp, (RandomOtpAlgorithm.mk 6 Charset.numeric none).generate [1, 2, 3, 4, 5, 6] = Except.ok otp) :=
  ⟨C9_operations_do_not_fail.1 helloOpts helloInst none (some 5)
      (by decide) (by decide) (by decide),
   C9_operations_do_not_fail.2 ⟨some 6, some Charset.numeric, none⟩
      ⟨6, Charset.numeric, none⟩ [1, 2, 3, 4, 5, 6] (by decide)⟩
